import Mathlib

/-!
Shallow embedding of src/cq.rs: the per-worker ReadyQueue of suspended
tasks, its cross-thread submission protocol (ReadyQueue::push_and_notify),
its drain protocol (ReadyQueue::pop_and_poll), the task driver (fn poll)
and the wake callback object (QueueNotify).

Modelling conventions, all taken from the source:
* `usize` atomics are modelled as `Nat` with arithmetic modulo `2 ^ 64`
  (`USIZE_MOD`); `fetch_add`/`fetch_sub` return the pre-operation value,
  exactly as the Rust atomics do.
* A task (`Item = Spawn<BoxFuture<((), ())>>`) is modelled by a finite
  script of poll outcomes; each `poll_future_notify` call consumes the
  next scripted outcome. An exhausted script polls as resolved.
* `util::get_worker_id()` (the thread-local identity of the calling
  thread) is passed as an explicit `callerId` argument, and the fresh
  allocation of `QueueNotify` objects (`Arc::new(QueueNotify::new(..))`)
  is modelled by threading a `fresh` id counter; a notify object carries
  its allocation id so that object identity (reuse vs fresh allocation)
  is observable.
* The `CompletionQueue` indirection (`cq.push_and_notify` delegating to
  `fq.push_and_notify(f, cq.clone())`, and `cq.pop_and_poll` delegating
  to `fq.pop_and_poll(cq.clone())`) is flattened: operations act on the
  `ReadyQueue` state directly.
* Panics (`assert!`, `expect`) are modelled as `Except.error` with the
  panic message.
* Sequential (interleaving-free) execution of each entry point is
  modelled; each entry point is a pure function of the state it reads.
-/

namespace GrpcRs

/-- Word size of the pending counter: the `pending: AtomicUsize` field is a
64-bit unsigned integer, so all of its arithmetic is modulo `2 ^ 64`. -/
def USIZE_MOD : Nat := 2 ^ 64

/-- Outcome of one `poll_future_notify` call on a task, mirroring
`Result<Async<()>, ()>` of futures 0.1: `ready` is `Ok(Async::Ready(_))`,
`err` is `Err(_)`, `notReady` is `Ok(Async::NotReady)`. -/
inductive PollOutcome where
  | ready
  | err
  | notReady
deriving DecidableEq

/-- A suspended task (`type Item = Spawn<BoxFuture<((), ())>>`): an opaque
computation identified by `id`, whose successive polls yield the outcomes
in `script`. -/
structure Item where
  id : Nat
  script : List PollOutcome
deriving DecidableEq

/-- One poll of the underlying future: consume the next scripted outcome
and return it together with the advanced task. An exhausted script polls
as resolved. -/
def Item.pollOnce (f : Item) : PollOutcome × Item :=
  match f.script with
  | [] => (PollOutcome.ready, f)
  | o :: rest => (o, { f with script := rest })

/-- `QueueNotify`: the per-suspension wake callback. `id` models the
allocation identity of the `Arc<QueueNotify>` (so reuse vs fresh creation
is observable), `f` models the `Arc<SpinLock<Option<Item>>>` protected
cell holding the at-most-one task in flight under this notify. -/
structure QueueNotify where
  id : Nat
  f : Option Item
deriving DecidableEq

/-- The wake trigger (`Alarm`) stored by a `ReadyQueue`: created by
`Alarm::new(&cq, tag)` with `tag = Box::new(CallTag::Queue(notify))` and
then armed by `.alarm()`. -/
structure Alarm where
  tagNotify : QueueNotify
  armed : Bool
deriving DecidableEq

/-- `struct ReadyQueue`: the lock-free FIFO of suspended tasks (front of
the list pops first), the pending counter, the spin-locked slot holding at
most one armed alarm, and the owning worker identity. -/
structure ReadyQueue where
  queue : List Item
  pending : Nat
  alarm : Option Alarm
  worker_id : Nat
deriving DecidableEq

/-- `fn poll(f: Item, notify: &Arc<QueueNotify>) -> bool`: install the
task into the notify cell (`*option = Some(f)`), poll it with this notify
bound as wake callback; on `Err(_)` or `Ok(Async::Ready(_))` take the
cell (`option.take()`) and return `true`; on `Ok(Async::NotReady)` leave
the advanced task in the cell and return `false`. -/
def poll (f : Item) (notify : QueueNotify) : Bool × QueueNotify :=
  match Item.pollOnce f with
  | (PollOutcome.err, _) => (true, { notify with f := none })
  | (PollOutcome.ready, _) => (true, { notify with f := none })
  | (PollOutcome.notReady, f2) => (false, { notify with f := some f2 })

/-- Result of `ReadyQueue::push_and_notify`: the updated queue state, the
next fresh allocation id, the inline drive result (same-thread fast path:
the `poll` return value and the notify used), and whether a new alarm was
armed by this call. -/
structure PushResult where
  rq : ReadyQueue
  fresh : Nat
  inlineDriven : Option (Bool × QueueNotify)
  armed : Bool
deriving DecidableEq

/-- `ReadyQueue::push_and_notify(&self, f: Item, cq: CompletionQueue)`:
construct a fresh `QueueNotify`; if `util::get_worker_id()` equals the
queue worker id, drive the task inline with `poll` and touch nothing
else; otherwise push the task on the FIFO and `fetch_add(1)` the pending
counter, and when the returned pre-value is `0` store a new armed `Alarm`
(tagged with the notify) in the alarm slot. -/
def ReadyQueue.push_and_notify (rq : ReadyQueue) (callerId : Nat) (f : Item)
    (fresh : Nat) : PushResult :=
  if callerId = rq.worker_id then
    { rq := rq, fresh := fresh + 1,
      inlineDriven := some (poll f { id := fresh, f := none }), armed := false }
  else if rq.pending = 0 then
    { rq := { rq with
        queue := rq.queue ++ [f],
        pending := (rq.pending + 1) % USIZE_MOD,
        alarm := some { tagNotify := { id := fresh, f := none }, armed := true } },
      fresh := fresh + 1, inlineDriven := none, armed := true }
  else
    { rq := { rq with
        queue := rq.queue ++ [f],
        pending := (rq.pending + 1) % USIZE_MOD },
      fresh := fresh + 1, inlineDriven := none, armed := false }

/-- Trace record of one iteration of the drain loop body of
`ReadyQueue::pop_and_poll`: the id of the notify used this iteration,
whether it was freshly constructed (else reused), the `done` flag on
entry, the task popped by `try_pop` (`none` models an empty pop), and the
`done` flag after the iteration. -/
structure DrainStep where
  notifyId : Nat
  freshNotify : Bool
  doneBefore : Bool
  popped : Option Item
  doneAfter : Bool
deriving DecidableEq

/-- Result of the drain loop of `ReadyQueue::pop_and_poll`: the remaining
FIFO, the pending counter value at loop exit, the notify and done flag
held at exit, the next fresh allocation id, the iteration trace, and the
total number of `fetch_sub` calls performed on the pending counter. -/
structure LoopResult where
  queue : List Item
  pending : Nat
  notify : QueueNotify
  done : Bool
  fresh : Nat
  steps : List DrainStep
  decrements : Nat
deriving DecidableEq

/-- The `while 0 != self.pending.fetch_sub(1, SeqCst)` loop of
`ReadyQueue::pop_and_poll`, as a function of the FIFO, the live pending
counter, the current notify, the `done` flag and the fresh id counter.
Each loop-condition evaluation is one `fetch_sub`; the terminating
evaluation sees pre-value `0` and still subtracts, wrapping the usize
counter to `USIZE_MOD - 1`. In the body, the notify is reused when `done`
holds and freshly constructed otherwise, and `try_pop` either yields the
FIFO front (which is then driven by `poll`, updating `done`) or yields
nothing, in which case the iteration drives nothing and `done` is left
unchanged. -/
def drainLoop : List Item → Nat → QueueNotify → Bool → Nat → LoopResult
  | queue, 0, notify0, done, fresh =>
      { queue := queue, pending := USIZE_MOD - 1, notify := notify0,
        done := done, fresh := fresh, steps := [], decrements := 1 }
  | [], Nat.succ p, notify0, true, fresh =>
      let r := drainLoop [] p notify0 true fresh
      { r with
        steps := { notifyId := notify0.id, freshNotify := false,
                   doneBefore := true, popped := none,
                   doneAfter := true } :: r.steps,
        decrements := r.decrements + 1 }
  | [], Nat.succ p, _, false, fresh =>
      let r := drainLoop [] p { id := fresh, f := none } false (fresh + 1)
      { r with
        steps := { notifyId := fresh, freshNotify := true,
                   doneBefore := false, popped := none,
                   doneAfter := false } :: r.steps,
        decrements := r.decrements + 1 }
  | f :: rest, Nat.succ p, notify0, true, fresh =>
      let pr := poll f notify0
      let r := drainLoop rest p pr.2 pr.1 fresh
      { r with
        steps := { notifyId := notify0.id, freshNotify := false,
                   doneBefore := true, popped := some f,
                   doneAfter := pr.1 } :: r.steps,
        decrements := r.decrements + 1 }
  | f :: rest, Nat.succ p, _, false, fresh =>
      let pr := poll f { id := fresh, f := none }
      let r := drainLoop rest p pr.2 pr.1 (fresh + 1)
      { r with
        steps := { notifyId := fresh, freshNotify := true,
                   doneBefore := false, popped := some f,
                   doneAfter := pr.1 } :: r.steps,
        decrements := r.decrements + 1 }

/-- Result of a completed `ReadyQueue::pop_and_poll` call: the updated
queue state (alarm slot emptied by the final `take()`), the iteration
trace, the `fetch_sub` count, the next fresh id and the notify held at
loop exit. -/
structure DrainResult where
  rq : ReadyQueue
  steps : List DrainStep
  decrements : Nat
  fresh : Nat
  lastNotify : QueueNotify
deriving DecidableEq

/-- `ReadyQueue::pop_and_poll(&self, cq: CompletionQueue)`: start with a
fresh notify and `done = true`, run the drain loop, then
`self.alarm.lock().take().expect("must have an Alarm")`. A missing alarm
at the final take is the `expect` panic, modelled as `Except.error`. -/
def ReadyQueue.pop_and_poll (rq : ReadyQueue) (fresh : Nat) :
    Except String DrainResult :=
  let r := drainLoop rq.queue rq.pending { id := fresh, f := none } true (fresh + 1)
  match rq.alarm with
  | none => Except.error "must have an Alarm"
  | some _ =>
      Except.ok
        { rq := { rq with queue := r.queue, pending := r.pending, alarm := none },
          steps := r.steps, decrements := r.decrements, fresh := r.fresh,
          lastNotify := r.notify }

/-- `QueueNotify::resolve(self, success: bool)`: `assert!(!success)` (the
panic is modelled as `Except.error`), then one `cq.pop_and_poll()` pass
on the bound queue. -/
def QueueNotify.resolve (_n : QueueNotify) (success : Bool) (rq : ReadyQueue)
    (fresh : Nat) : Except String DrainResult :=
  if success then Except.error "assertion failed: !success"
  else rq.pop_and_poll fresh

/-- Result of invoking the `Notify::notify` wake callback of a
`QueueNotify`: the notify cell state afterwards, the bound queue state
afterwards, the next fresh id, and whether a task was resubmitted. -/
structure NotifyResult where
  qn : QueueNotify
  rq : ReadyQueue
  fresh : Nat
  resubmitted : Bool
deriving DecidableEq

/-- `impl Notify for QueueNotify { fn notify(&self, _: usize) }`: take
whatever occupies the protected cell; when a task is present resubmit it
once via `self.cq.push_and_notify(f)` (the bound CompletionQueue
submission path, which delegates to `ReadyQueue::push_and_notify`); when
the cell is empty do nothing. -/
def QueueNotify.notify (n : QueueNotify) (rq : ReadyQueue) (callerId : Nat)
    (fresh : Nat) : NotifyResult :=
  match n.f with
  | some f =>
      { qn := { n with f := none },
        rq := (rq.push_and_notify callerId f fresh).rq,
        fresh := (rq.push_and_notify callerId f fresh).fresh,
        resubmitted := true }
  | none => { qn := n, rq := rq, fresh := fresh, resubmitted := false }

/-- A sequence of `push_and_notify` submissions from one calling thread;
returns the final queue state, the final fresh id, and the number of
submissions that armed an alarm. -/
def submitSeq (callerId : Nat) : ReadyQueue → Nat → List Item →
    ReadyQueue × Nat × Nat
  | rq, fresh, [] => (rq, fresh, 0)
  | rq, fresh, f :: fs =>
      let r := rq.push_and_notify callerId f fresh
      let rest := submitSeq callerId r.rq r.fresh fs
      (rest.1, rest.2.1, (if r.armed then 1 else 0) + rest.2.2)

/-- Well-formedness of a drain-loop trace relative to the notify id held
on loop entry (`nid`) and the `done` flag on entry: each step records the
entry flag, is freshly constructed exactly when the entry flag is false,
uses the held id when reusing and a strictly larger id when fresh, and
the tail is well-formed for the id and flag this step hands on. -/
def ChainSteps : Nat → Bool → List DrainStep → Prop
  | _, _, [] => True
  | nid, done, s :: rest =>
      s.doneBefore = done ∧ s.freshNotify = !done ∧
      (done = true → s.notifyId = nid) ∧
      (done = false → nid < s.notifyId) ∧
      ChainSteps s.notifyId s.doneAfter rest

/-! Helper lemmas about the embedded operations. -/

/-- `fn poll` never changes which notify object it writes to: the
allocation id of the notify is preserved. -/
lemma poll_id (f : Item) (n : QueueNotify) : (poll f n).2.id = n.id := by
  rcases hp : Item.pollOnce f with ⟨o, f2⟩
  cases o <;> simp [poll, hp]

/-- The drain loop runs exactly `pending` body iterations. -/
lemma drainLoop_steps_length (p : Nat) :
    ∀ queue notify0 done fresh,
      (drainLoop queue p notify0 done fresh).steps.length = p := by
  induction p with
  | zero => intro queue notify0 done fresh; simp [drainLoop]
  | succ p ih =>
      intro queue notify0 done fresh
      cases queue <;> cases done <;> simp [drainLoop, ih]

/-- The drain loop performs exactly `pending + 1` `fetch_sub` calls on the
pending counter: one per body iteration plus the terminating one. -/
lemma drainLoop_decrements (p : Nat) :
    ∀ queue notify0 done fresh,
      (drainLoop queue p notify0 done fresh).decrements = p + 1 := by
  induction p with
  | zero => intro queue notify0 done fresh; simp [drainLoop]
  | succ p ih =>
      intro queue notify0 done fresh
      cases queue <;> cases done <;> simp [drainLoop, ih]

/-- At loop exit the pending counter always holds `USIZE_MOD - 1`: the
terminating `fetch_sub` reads pre-value `0` and wraps the usize. -/
lemma drainLoop_pending (p : Nat) :
    ∀ queue notify0 done fresh,
      (drainLoop queue p notify0 done fresh).pending = USIZE_MOD - 1 := by
  induction p with
  | zero => intro queue notify0 done fresh; simp [drainLoop]
  | succ p ih =>
      intro queue notify0 done fresh
      cases queue <;> cases done <;> simp [drainLoop, ih]

/-- Number of iterations whose `try_pop` actually yielded a task: the
drain pops `min pending (queue length)` tasks, one per iteration while
the FIFO lasts, and skips the rest. -/
lemma drainLoop_popped_count (p : Nat) :
    ∀ queue notify0 done fresh,
      ((drainLoop queue p notify0 done fresh).steps.countP
          (fun s => s.popped.isSome)) = min p queue.length := by
  induction p with
  | zero => intro queue notify0 done fresh; simp [drainLoop]
  | succ p ih =>
      intro queue notify0 done fresh
      cases queue with
      | nil => cases done <;> simp [drainLoop, List.countP_cons, ih]
      | cons f rest =>
          cases done <;>
            simp [drainLoop, List.countP_cons, ih, Nat.succ_min_succ]

/-- When the pending count never exceeds the FIFO length, every drain
iteration pops a task. -/
lemma drainLoop_popped_isSome (p : Nat) :
    ∀ queue notify0 done fresh, p ≤ queue.length →
      ∀ s ∈ (drainLoop queue p notify0 done fresh).steps,
        s.popped.isSome = true := by
  induction p with
  | zero => intro queue notify0 done fresh _ s hs; simp [drainLoop] at hs
  | succ p ih =>
      intro queue notify0 done fresh hq s hs
      cases queue with
      | nil => simp at hq
      | cons f rest =>
          have hq2 : p ≤ rest.length := Nat.le_of_succ_le_succ hq
          cases done with
          | false =>
              simp [drainLoop] at hs
              rcases hs with h0 | hs
              · simp [h0]
              · exact ih rest _ _ _ hq2 s hs
          | true =>
              simp [drainLoop] at hs
              rcases hs with h0 | hs
              · simp [h0]
              · exact ih rest _ _ _ hq2 s hs

/-- The drain loop queue after the run: the first `pending` tasks (as far
as the FIFO lasts) are removed from the front. -/
lemma drainLoop_queue (p : Nat) :
    ∀ queue notify0 done fresh,
      (drainLoop queue p notify0 done fresh).queue = queue.drop p := by
  induction p with
  | zero => intro queue notify0 done fresh; simp [drainLoop]
  | succ p ih =>
      intro queue notify0 done fresh
      cases queue <;> cases done <;> simp [drainLoop, ih]

/-- The drain loop produces a well-formed trace: it starts from the entry
notify id and entry `done` flag, reuses the held notify exactly while
`done` holds, and allocates strictly increasing fresh ids otherwise. -/
lemma drainLoop_chain (p : Nat) :
    ∀ queue notify0 done fresh, notify0.id < fresh →
      ChainSteps notify0.id done (drainLoop queue p notify0 done fresh).steps := by
  induction p with
  | zero => intro queue notify0 done fresh _; simp [drainLoop, ChainSteps]
  | succ p ih =>
      intro queue notify0 done fresh hid
      cases queue with
      | nil =>
          cases done with
          | true =>
              refine ⟨rfl, rfl, fun _ => rfl, fun h => Bool.noConfusion h, ?_⟩
              exact ih [] notify0 true fresh hid
          | false =>
              refine ⟨rfl, rfl, fun h => Bool.noConfusion h, fun _ => hid, ?_⟩
              exact ih [] { id := fresh, f := none } false (fresh + 1)
                (Nat.lt_succ_self fresh)
      | cons f rest =>
          cases done with
          | true =>
              refine ⟨rfl, rfl, fun _ => rfl, fun h => Bool.noConfusion h, ?_⟩
              have h2 : (poll f notify0).2.id < fresh := by
                rw [poll_id]; exact hid
              have := ih rest (poll f notify0).2 (poll f notify0).1 fresh h2
              rw [poll_id] at this
              exact this
          | false =>
              refine ⟨rfl, rfl, fun h => Bool.noConfusion h, fun _ => hid, ?_⟩
              have h2 : (poll f { id := fresh, f := none }).2.id < fresh + 1 := by
                rw [poll_id]; exact Nat.lt_succ_self fresh
              have := ih rest (poll f { id := fresh, f := none }).2
                (poll f { id := fresh, f := none }).1 (fresh + 1) h2
              rw [poll_id] at this
              exact this

/-- In a well-formed trace every recorded notify id is at least the entry
id, strictly greater when the entry `done` flag is false. -/
lemma chainSteps_lower :
    ∀ (steps : List DrainStep) (nid : Nat) (done : Bool),
      ChainSteps nid done steps →
      ∀ t ∈ steps, nid ≤ t.notifyId ∧ (done = false → nid < t.notifyId) := by
  intro steps
  induction steps with
  | nil => intro nid done _ t ht; simp at ht
  | cons s rest ih =>
      intro nid done ch t ht
      obtain ⟨_, _, heq, hlt, ch2⟩ := ch
      have hs : nid ≤ s.notifyId ∧ (done = false → nid < s.notifyId) := by
        cases done with
        | true =>
            exact ⟨Nat.le_of_eq (heq rfl).symm, fun h => Bool.noConfusion h⟩
        | false => exact ⟨Nat.le_of_lt (hlt rfl), fun _ => hlt rfl⟩
      rcases List.mem_cons.mp ht with rfl | ht2
      · exact hs
      · have := ih s.notifyId s.doneAfter ch2 t ht2
        refine ⟨Nat.le_trans hs.1 this.1, fun h => ?_⟩
        exact Nat.lt_of_lt_of_le (hs.2 h) this.1

/-- In a well-formed trace, once an iteration ends with `done = false`
(its task re-suspended holding the notify), every later iteration uses a
strictly larger notify id: a notify held by a suspended task is never
used again within the drain. -/
lemma chainSteps_no_share :
    ∀ (steps : List DrainStep) (nid : Nat) (done : Bool),
      ChainSteps nid done steps →
      ∀ i j (hi : i < steps.length) (hj : j < steps.length), i < j →
        (steps.get ⟨i, hi⟩).doneAfter = false →
        (steps.get ⟨i, hi⟩).notifyId < (steps.get ⟨j, hj⟩).notifyId := by
  intro steps
  induction steps with
  | nil => intro nid done _ i j hi _ _ _; simp at hi
  | cons s rest ih =>
      intro nid done ch i j hi hj hij hda
      obtain ⟨_, _, _, _, ch2⟩ := ch
      cases i with
      | zero =>
          cases j with
          | zero => cases hij
          | succ j2 =>
              have hj2 : j2 < rest.length := Nat.lt_of_succ_lt_succ hj
              have hmem : rest.get ⟨j2, hj2⟩ ∈ rest := List.get_mem rest j2 hj2
              have hda0 : s.doneAfter = false := hda
              have := chainSteps_lower rest s.notifyId s.doneAfter ch2
                (rest.get ⟨j2, hj2⟩) hmem
              exact this.2 hda0
      | succ i2 =>
          cases j with
          | zero => cases hij
          | succ j2 =>
              have hi2 : i2 < rest.length := Nat.lt_of_succ_lt_succ hi
              have hj2 : j2 < rest.length := Nat.lt_of_succ_lt_succ hj
              exact ih s.notifyId s.doneAfter ch2 i2 j2 hi2 hj2
                (Nat.lt_of_succ_lt_succ hij) hda

/-- Adjacent iterations of a well-formed trace: the next iteration
constructs a fresh notify exactly when this iteration ended with
`done = false`, and keeps the very same notify id exactly when this
iteration resolved its task. -/
lemma chainSteps_adjacent :
    ∀ (steps : List DrainStep) (nid : Nat) (done : Bool),
      ChainSteps nid done steps →
      ∀ i (h1 : i + 1 < steps.length),
        ((steps.get ⟨i + 1, h1⟩).freshNotify = true ↔
          (steps.get ⟨i, Nat.lt_of_succ_lt h1⟩).doneAfter = false)
        ∧ ((steps.get ⟨i + 1, h1⟩).notifyId =
              (steps.get ⟨i, Nat.lt_of_succ_lt h1⟩).notifyId ↔
            (steps.get ⟨i, Nat.lt_of_succ_lt h1⟩).doneAfter = true) := by
  intro steps
  induction steps with
  | nil => intro nid done _ i h1; simp at h1
  | cons s rest ih =>
      intro nid done ch i h1
      obtain ⟨_, _, _, _, ch2⟩ := ch
      cases i with
      | zero =>
          cases rest with
          | nil => simp at h1
          | cons s2 rest2 =>
              obtain ⟨hdb2, hfn2, heq2, hlt2, _⟩ := ch2
              constructor
              · show s2.freshNotify = true ↔ s.doneAfter = false
                rw [hfn2]
                cases hda : s.doneAfter <;> simp
              · show s2.notifyId = s.notifyId ↔ s.doneAfter = true
                cases hda : s.doneAfter with
                | true => simp [heq2 hda]
                | false =>
                    have hlt := hlt2 hda
                    constructor
                    · intro he; exact absurd he (by omega)
                    · intro he; exact Bool.noConfusion he
      | succ i2 =>
          have h2 : i2 + 1 < rest.length := Nat.lt_of_succ_lt_succ h1
          exact ih s.notifyId s.doneAfter ch2 i2 h2

/-- A cross-thread submission arms an alarm exactly when the pre-increment
value of the pending counter is `0`. -/
lemma push_cross_armed (rq : ReadyQueue) (callerId : Nat) (f : Item)
    (fresh : Nat) (h : ¬ callerId = rq.worker_id) :
    (rq.push_and_notify callerId f fresh).armed = decide (rq.pending = 0) := by
  by_cases h0 : rq.pending = 0 <;>
    simp [ReadyQueue.push_and_notify, h, h0]

/-- A cross-thread submission increments the pending counter modulo the
usize width. -/
lemma push_cross_pending (rq : ReadyQueue) (callerId : Nat) (f : Item)
    (fresh : Nat) (h : ¬ callerId = rq.worker_id) :
    (rq.push_and_notify callerId f fresh).rq.pending
      = (rq.pending + 1) % USIZE_MOD := by
  by_cases h0 : rq.pending = 0 <;>
    simp [ReadyQueue.push_and_notify, h, h0]

/-- Submission never changes the worker identity of the queue. -/
lemma push_worker_id (rq : ReadyQueue) (callerId : Nat) (f : Item)
    (fresh : Nat) :
    (rq.push_and_notify callerId f fresh).rq.worker_id = rq.worker_id := by
  by_cases h : callerId = rq.worker_id
  · simp [ReadyQueue.push_and_notify, h]
  · by_cases h0 : rq.pending = 0 <;>
      simp [ReadyQueue.push_and_notify, h, h0]

/-- Across a wrap-free sequence of cross-thread submissions, the number of
alarms armed is `1` when the queue started with pending counter `0` and
at least one submission occurs, and `0` otherwise: only the submitter
that observes the `0` pre-value arms. -/
lemma submitSeq_armCount (callerId : Nat) :
    ∀ (fs : List Item) (rq : ReadyQueue) (fresh : Nat),
      ¬ callerId = rq.worker_id → rq.pending + fs.length ≤ USIZE_MOD →
      (submitSeq callerId rq fresh fs).2.2
        = if rq.pending = 0 ∧ 0 < fs.length then 1 else 0 := by
  intro fs
  induction fs with
  | nil =>
      intro rq fresh h hw
      simp [submitSeq]
  | cons f fs ih =>
      intro rq fresh h hw
      have hM : 2 ≤ USIZE_MOD := by norm_num [USIZE_MOD]
      have hp1 : rq.pending + 1 ≤ USIZE_MOD := by
        simp only [List.length_cons] at hw; omega
      have h2 : ¬ callerId = (rq.push_and_notify callerId f fresh).rq.worker_id := by
        rw [push_worker_id]; exact h
      have hpend := push_cross_pending rq callerId f fresh h
      rcases Nat.lt_or_ge (rq.pending + 1) USIZE_MOD with hlt | hge
      · have hmod : (rq.pending + 1) % USIZE_MOD = rq.pending + 1 :=
          Nat.mod_eq_of_lt hlt
        have hw2 : (rq.push_and_notify callerId f fresh).rq.pending + fs.length
            ≤ USIZE_MOD := by
          rw [hpend, hmod]
          simp only [List.length_cons] at hw; omega
        have hrec := ih (rq.push_and_notify callerId f fresh).rq
          (rq.push_and_notify callerId f fresh).fresh h2 hw2
        have hne : ¬ ((rq.push_and_notify callerId f fresh).rq.pending = 0) := by
          rw [hpend, hmod]; omega
        simp only [submitSeq, hrec, hne, false_and, if_false,
          push_cross_armed rq callerId f fresh h]
        by_cases h0 : rq.pending = 0 <;> simp [h0]
      · have heq : rq.pending + 1 = USIZE_MOD := Nat.le_antisymm hp1 hge
        have hfs : fs.length = 0 := by
          simp only [List.length_cons] at hw; omega
        have hfs2 : fs = [] := List.length_eq_zero.mp hfs
        have hne : ¬ (rq.pending = 0) := by omega
        subst hfs2
        simp [submitSeq, push_cross_armed rq callerId f fresh h, hne]

/-! Claim theorems. -/

/-- Claim C1: a cross-thread submission arms a new wake trigger if and
only if the pre-increment value of the pending counter it reads is
exactly `0`; across a wrap-free sequence of cross-thread submissions,
exactly one trigger is armed when the counter starts at `0` (the single
empty-to-non-empty transition of the counter) and none otherwise, so
submitters that do not observe the `0` pre-value arm nothing. The alarm
slot is an `Option`, holding at most one trigger at a time. -/
theorem push_and_notify_arms_iff_pending_pre_zero (rq : ReadyQueue)
    (callerId : Nat) (f : Item) (fs : List Item) (fresh : Nat)
    (h : ¬ callerId = rq.worker_id)
    (hw : rq.pending + fs.length ≤ USIZE_MOD) :
    ((rq.push_and_notify callerId f fresh).armed = true ↔ rq.pending = 0)
    ∧ (submitSeq callerId rq fresh fs).2.2
        = (if rq.pending = 0 ∧ 0 < fs.length then 1 else 0) := by
  constructor
  · rw [push_cross_armed rq callerId f fresh h]
    simp
  · exact submitSeq_armCount callerId fs rq fresh h hw

/-- Witness for C1 at a concrete input: worker `0`, submitter `1`, queue
initially with pending `0`, two further submissions. -/
theorem push_and_notify_arms_iff_pending_pre_zero_witness :
    ((({ queue := [], pending := 0, alarm := none, worker_id := 0 } :
          ReadyQueue).push_and_notify 1 { id := 10, script := [PollOutcome.ready] }
          0).armed = true
      ↔ ({ queue := [], pending := 0, alarm := none, worker_id := 0 } :
          ReadyQueue).pending = 0)
    ∧ (submitSeq 1
        ({ queue := [], pending := 0, alarm := none, worker_id := 0 } : ReadyQueue)
        0 [{ id := 11, script := [PollOutcome.ready] },
           { id := 12, script := [PollOutcome.notReady] }]).2.2
      = (if ({ queue := [], pending := 0, alarm := none, worker_id := 0 } :
              ReadyQueue).pending = 0
            ∧ 0 < ([{ id := 11, script := [PollOutcome.ready] },
                    { id := 12, script := [PollOutcome.notReady] }] :
                List Item).length
          then 1 else 0) :=
  push_and_notify_arms_iff_pending_pre_zero
    { queue := [], pending := 0, alarm := none, worker_id := 0 } 1
    { id := 10, script := [PollOutcome.ready] }
    [{ id := 11, script := [PollOutcome.ready] },
     { id := 12, script := [PollOutcome.notReady] }] 0
    (by decide) (by decide)

/-- Claim C2 (evaluated at its failing input): submitting one immediately
resolving task from non-owning thread `1` to an empty queue owned by
worker `0` arms one trigger and moves the counter from `0` to `1`, and
the drain pops and resolves exactly that task and releases the trigger —
but the drain leaves the pending counter at `USIZE_MOD - 1` (the
terminating `fetch_sub` wraps the usize), not at `0` as the claim states;
consequently the next cross-thread submission to the again-empty queue
reads pre-value `USIZE_MOD - 1`, arms no trigger, and strands its task in
the FIFO (lost wakeup). -/
theorem scenarioB_drain_leaves_pending_wrapped :
    let rq0 : ReadyQueue := { queue := [], pending := 0, alarm := none, worker_id := 0 }
    let t : Item := { id := 100, script := [PollOutcome.ready] }
    let p1 := rq0.push_and_notify 1 t 0
    p1.armed = true ∧ p1.rq.pending = 1 ∧ p1.rq.queue = [t]
      ∧ p1.rq.alarm.isSome = true
      ∧ (p1.rq.pop_and_poll p1.fresh).map
          (fun r => (r.rq.queue.length, r.rq.alarm.isNone, r.steps.length,
            r.steps.countP (fun s => s.popped.isSome), r.rq.pending,
            (r.rq.push_and_notify 1 { id := 101, script := [PollOutcome.ready] }
              r.fresh).armed,
            (r.rq.push_and_notify 1 { id := 101, script := [PollOutcome.ready] }
              r.fresh).rq.queue.length))
        = Except.ok (0, true, 1, 1, USIZE_MOD - 1, false, 1) :=
  ⟨rfl, rfl, rfl, rfl, rfl⟩

/-- Counterexample to claim C3: a drain iteration that claims a counter
slot (pending `1`) while the FIFO is momentarily empty performs no pop at
all — the loop runs its single iteration with an empty `try_pop`, drives
nothing, and terminates normally; it does not retry the pop until a task
is obtained. -/
theorem drain_transient_miss_counterexample :
    (({ queue := [], pending := 1,
        alarm := some { tagNotify := { id := 9, f := none }, armed := true },
        worker_id := 0 } : ReadyQueue).pop_and_poll 10).map
        (fun r => (r.steps.length, r.steps.countP (fun s => s.popped.isSome)))
      = Except.ok (1, 0) := rfl

/-- Claim C3 as amended: during a drain, an iteration whose non-blocking
pop finds the FIFO empty despite a claimed counter slot is tolerated
without error — the iteration simply skips driving a task (no retry), so
the drain completes normally, runs one iteration per claimed slot, and
pops exactly `min pending (queue length)` tasks. -/
theorem drain_tolerates_empty_pop_by_skipping (rq : ReadyQueue) (fresh : Nat)
    (a : Alarm) (h : rq.alarm = some a) :
    ∃ r, rq.pop_and_poll fresh = Except.ok r
      ∧ r.steps.length = rq.pending
      ∧ (r.steps.countP fun s => s.popped.isSome)
          = min rq.pending rq.queue.length := by
  unfold ReadyQueue.pop_and_poll
  rw [h]
  exact ⟨_, rfl, drainLoop_steps_length rq.pending rq.queue _ true (fresh + 1),
    drainLoop_popped_count rq.pending rq.queue _ true (fresh + 1)⟩

/-- Witness for the amended C3 at a concrete input: pending `2` but only
one task in the FIFO; the drain ends without error, runs two iterations
and pops one task. -/
theorem drain_tolerates_empty_pop_by_skipping_witness :
    ∃ r, ({ queue := [{ id := 3, script := [PollOutcome.ready] }], pending := 2,
            alarm := some { tagNotify := { id := 9, f := none }, armed := true },
            worker_id := 0 } : ReadyQueue).pop_and_poll 10 = Except.ok r
      ∧ r.steps.length = 2
      ∧ (r.steps.countP fun s => s.popped.isSome) = 1 :=
  drain_tolerates_empty_pop_by_skipping
    { queue := [{ id := 3, script := [PollOutcome.ready] }], pending := 2,
      alarm := some { tagNotify := { id := 9, f := none }, armed := true },
      worker_id := 0 } 10
    { tagNotify := { id := 9, f := none }, armed := true } rfl

/-- Claim C4: when the drain is invoked with a previously armed wake
trigger stored in the alarm slot (the only protocol-reachable way it is
invoked), the final take of the trigger succeeds and leaves the slot
empty; invoking the drain with an empty alarm slot, by contrast, is the
fatal `expect` failure "must have an Alarm". -/
theorem drain_take_alarm_is_safe (rq : ReadyQueue) (fresh : Nat) :
    (∀ a, rq.alarm = some a →
      ∃ r, rq.pop_and_poll fresh = Except.ok r ∧ r.rq.alarm = none)
    ∧ (rq.alarm = none →
        rq.pop_and_poll fresh = Except.error "must have an Alarm") := by
  constructor
  · intro a h
    unfold ReadyQueue.pop_and_poll
    rw [h]
    exact ⟨_, rfl, rfl⟩
  · intro h
    unfold ReadyQueue.pop_and_poll
    rw [h]

/-- Witness for C4 at a concrete input: a queue with an armed alarm
drains without hitting the `expect` failure and releases the alarm. -/
theorem drain_take_alarm_is_safe_witness :
    ∃ r, ({ queue := [{ id := 4, script := [PollOutcome.err] }], pending := 1,
            alarm := some { tagNotify := { id := 9, f := none }, armed := true },
            worker_id := 0 } : ReadyQueue).pop_and_poll 10 = Except.ok r
      ∧ r.rq.alarm = none :=
  (drain_take_alarm_is_safe
    { queue := [{ id := 4, script := [PollOutcome.err] }], pending := 1,
      alarm := some { tagNotify := { id := 9, f := none }, armed := true },
      worker_id := 0 } 10).1
    { tagNotify := { id := 9, f := none }, armed := true } rfl

/-- Claim C5: a submission from the thread whose worker identity equals
the queue worker identity drives the task immediately with a freshly
constructed notify and changes nothing in the ReadyQueue: the returned
state is exactly the input state (FIFO, pending counter and alarm slot
untouched) and no trigger is armed. -/
theorem push_same_thread_is_frame_preserving (rq : ReadyQueue)
    (callerId : Nat) (f : Item) (fresh : Nat) (h : callerId = rq.worker_id) :
    rq.push_and_notify callerId f fresh =
      { rq := rq, fresh := fresh + 1,
        inlineDriven := some (poll f { id := fresh, f := none }),
        armed := false } := by
  simp [ReadyQueue.push_and_notify, h]

/-- Witness for C5 at a concrete input: worker `7` submitting to its own
queue. -/
theorem push_same_thread_is_frame_preserving_witness :
    ({ queue := [], pending := 5, alarm := none, worker_id := 7 } :
        ReadyQueue).push_and_notify 7 { id := 20, script := [PollOutcome.notReady] } 3
      = { rq := { queue := [], pending := 5, alarm := none, worker_id := 7 },
          fresh := 4,
          inlineDriven := some (poll { id := 20, script := [PollOutcome.notReady] }
            { id := 3, f := none }),
          armed := false } :=
  push_same_thread_is_frame_preserving
    { queue := [], pending := 5, alarm := none, worker_id := 7 } 7
    { id := 20, script := [PollOutcome.notReady] } 3 rfl

/-- Claim C6: driving a task installs it in the notify cell and polls it;
completion and failure alike clear the cell and report `true`, while
not-yet-complete leaves the (advanced) task stored in the cell and
reports `false` — so the returned boolean always equals the emptiness of
the cell afterwards, and the notify written to is the one passed in. -/
theorem poll_reports_cell_emptiness (f : Item) (n : QueueNotify) :
    (poll f n).1 = ((poll f n).2.f).isNone
    ∧ (poll f n).2.f =
        (if (Item.pollOnce f).1 = PollOutcome.notReady
          then some (Item.pollOnce f).2 else none)
    ∧ (poll f n).2.id = n.id := by
  rcases hp : Item.pollOnce f with ⟨o, f2⟩
  cases o <;> simp [poll, hp]

/-- Claim C7: the wake callback takes whatever occupies the protected
cell: on an empty cell it is a complete no-op; on an occupied cell it
empties the cell and resubmits the task exactly once through the queue
submission path, and a second invocation afterwards is a no-op — it
resubmits nothing and changes neither the cell nor the queue state. -/
theorem notify_wake_takes_cell_at_most_once (n : QueueNotify)
    (rq : ReadyQueue) (callerId fresh callerId2 fresh2 : Nat) :
    (n.f = none →
      n.notify rq callerId fresh =
        { qn := n, rq := rq, fresh := fresh, resubmitted := false })
    ∧ (∀ f, n.f = some f →
        n.notify rq callerId fresh =
          { qn := { n with f := none },
            rq := (rq.push_and_notify callerId f fresh).rq,
            fresh := (rq.push_and_notify callerId f fresh).fresh,
            resubmitted := true }
        ∧ ((n.notify rq callerId fresh).qn.notify
            (n.notify rq callerId fresh).rq callerId2 fresh2).resubmitted = false
        ∧ ((n.notify rq callerId fresh).qn.notify
            (n.notify rq callerId fresh).rq callerId2 fresh2).rq
          = (n.notify rq callerId fresh).rq
        ∧ ((n.notify rq callerId fresh).qn.notify
            (n.notify rq callerId fresh).rq callerId2 fresh2).qn
          = (n.notify rq callerId fresh).qn) := by
  constructor
  · intro h
    simp [QueueNotify.notify, h]
  · intro f h
    refine ⟨?_, ?_, ?_, ?_⟩ <;> simp [QueueNotify.notify, h]

/-- Witness for C7 at a concrete input: a notify holding a task,
resubmitting cross-thread, then invoked a second time. -/
theorem notify_wake_takes_cell_at_most_once_witness :
    ({ id := 0, f := some { id := 30, script := [PollOutcome.ready] } } :
        QueueNotify).notify
        ({ queue := [], pending := 0, alarm := none, worker_id := 0 } : ReadyQueue)
        1 5 =
      { qn := { id := 0, f := none },
        rq := (({ queue := [], pending := 0, alarm := none, worker_id := 0 } :
            ReadyQueue).push_and_notify 1
            { id := 30, script := [PollOutcome.ready] } 5).rq,
        fresh := (({ queue := [], pending := 0, alarm := none, worker_id := 0 } :
            ReadyQueue).push_and_notify 1
            { id := 30, script := [PollOutcome.ready] } 5).fresh,
        resubmitted := true }
    ∧ ((({ id := 0, f := some { id := 30, script := [PollOutcome.ready] } } :
          QueueNotify).notify
          ({ queue := [], pending := 0, alarm := none, worker_id := 0 } : ReadyQueue)
          1 5).qn.notify
        ((({ id := 0, f := some { id := 30, script := [PollOutcome.ready] } } :
          QueueNotify).notify
          ({ queue := [], pending := 0, alarm := none, worker_id := 0 } : ReadyQueue)
          1 5).rq) 2 9).resubmitted = false
    ∧ ((({ id := 0, f := some { id := 30, script := [PollOutcome.ready] } } :
          QueueNotify).notify
          ({ queue := [], pending := 0, alarm := none, worker_id := 0 } : ReadyQueue)
          1 5).qn.notify
        ((({ id := 0, f := some { id := 30, script := [PollOutcome.ready] } } :
          QueueNotify).notify
          ({ queue := [], pending := 0, alarm := none, worker_id := 0 } : ReadyQueue)
          1 5).rq) 2 9).rq
      = (({ id := 0, f := some { id := 30, script := [PollOutcome.ready] } } :
          QueueNotify).notify
          ({ queue := [], pending := 0, alarm := none, worker_id := 0 } : ReadyQueue)
          1 5).rq
    ∧ ((({ id := 0, f := some { id := 30, script := [PollOutcome.ready] } } :
          QueueNotify).notify
          ({ queue := [], pending := 0, alarm := none, worker_id := 0 } : ReadyQueue)
          1 5).qn.notify
        ((({ id := 0, f := some { id := 30, script := [PollOutcome.ready] } } :
          QueueNotify).notify
          ({ queue := [], pending := 0, alarm := none, worker_id := 0 } : ReadyQueue)
          1 5).rq) 2 9).qn
      = (({ id := 0, f := some { id := 30, script := [PollOutcome.ready] } } :
          QueueNotify).notify
          ({ queue := [], pending := 0, alarm := none, worker_id := 0 } : ReadyQueue)
          1 5).qn :=
  (notify_wake_takes_cell_at_most_once
    { id := 0, f := some { id := 30, script := [PollOutcome.ready] } }
    { queue := [], pending := 0, alarm := none, worker_id := 0 } 1 5 2 9).2
    { id := 30, script := [PollOutcome.ready] } rfl

/-- Claim C8: in a drain loop entered with `done = true` and a notify id
below the fresh counter, every iteration pops a task (given enough queued
tasks); a fresh notify is constructed for an iteration exactly when the
previous iteration ended not-yet-complete, the notify id is kept exactly
when the previous task resolved, and once an iteration ends
not-yet-complete (its task retains the notify) every later iteration uses
a strictly larger notify id — a notify held by a suspended task is never
reused for another task within the drain. -/
theorem drain_never_reuses_suspended_notify (queue : List Item) (p : Nat)
    (notify0 : QueueNotify) (fresh : Nat)
    (hid : notify0.id < fresh) (hq : p ≤ queue.length) :
    (∀ s ∈ (drainLoop queue p notify0 true fresh).steps, s.popped.isSome = true)
    ∧ (∀ i (h1 : i + 1 < (drainLoop queue p notify0 true fresh).steps.length),
        (((drainLoop queue p notify0 true fresh).steps.get ⟨i + 1, h1⟩).freshNotify
            = true
          ↔ ((drainLoop queue p notify0 true fresh).steps.get
              ⟨i, Nat.lt_of_succ_lt h1⟩).doneAfter = false)
        ∧ (((drainLoop queue p notify0 true fresh).steps.get ⟨i + 1, h1⟩).notifyId
              = ((drainLoop queue p notify0 true fresh).steps.get
                  ⟨i, Nat.lt_of_succ_lt h1⟩).notifyId
            ↔ ((drainLoop queue p notify0 true fresh).steps.get
                ⟨i, Nat.lt_of_succ_lt h1⟩).doneAfter = true))
    ∧ (∀ i j (hi : i < (drainLoop queue p notify0 true fresh).steps.length)
          (hj : j < (drainLoop queue p notify0 true fresh).steps.length),
        i < j →
        ((drainLoop queue p notify0 true fresh).steps.get ⟨i, hi⟩).doneAfter
            = false →
        ((drainLoop queue p notify0 true fresh).steps.get ⟨i, hi⟩).notifyId
          < ((drainLoop queue p notify0 true fresh).steps.get ⟨j, hj⟩).notifyId) := by
  have ch := drainLoop_chain p queue notify0 true fresh hid
  exact ⟨drainLoop_popped_isSome p queue notify0 true fresh hq,
    chainSteps_adjacent _ _ _ ch, chainSteps_no_share _ _ _ ch⟩

/-- Witness for C8 at a concrete input: two tasks, the first re-suspends;
the second iteration uses a strictly larger (fresh) notify id than the
one the suspended task retains. -/
theorem drain_never_reuses_suspended_notify_witness :
    ((drainLoop [{ id := 40, script := [PollOutcome.notReady] },
        { id := 41, script := [PollOutcome.ready] }] 2
        { id := 0, f := none } true 1).steps.get ⟨0, by decide⟩).notifyId
      < ((drainLoop [{ id := 40, script := [PollOutcome.notReady] },
          { id := 41, script := [PollOutcome.ready] }] 2
          { id := 0, f := none } true 1).steps.get ⟨1, by decide⟩).notifyId :=
  (drain_never_reuses_suspended_notify
    [{ id := 40, script := [PollOutcome.notReady] },
     { id := 41, script := [PollOutcome.ready] }] 2
    { id := 0, f := none } 1 (by decide) (by decide)).2.2 0 1
    (by decide) (by decide) (by decide) (by decide)

/-- Claim C9: `resolve(true)` trips the `assert!(!success)` panic (the
code insists a resolved wake callback is never a success outcome), and
`resolve(false)` performs exactly one `pop_and_poll` drain pass on the
bound queue. -/
theorem resolve_panics_on_success_and_drains_once (n : QueueNotify)
    (rq : ReadyQueue) (fresh : Nat) :
    n.resolve true rq fresh = Except.error "assertion failed: !success"
    ∧ n.resolve false rq fresh = rq.pop_and_poll fresh := by
  constructor <;> rfl

/-- Claim C10: the drain loop performs exactly one more `fetch_sub` on
the pending counter than it runs body iterations, it runs one body
iteration per unit of the entry counter value `n`, and it always exits
with the counter at `USIZE_MOD - 1` — which is `(n - (n + 1)) mod 2^64` —
in particular a drain entered with pending `0` leaves `2^64 - 1`, not
`0`. -/
theorem drain_counter_always_wraps (queue : List Item) (p : Nat)
    (notify0 : QueueNotify) (done : Bool) (fresh : Nat) :
    (drainLoop queue p notify0 done fresh).decrements
        = (drainLoop queue p notify0 done fresh).steps.length + 1
    ∧ (drainLoop queue p notify0 done fresh).steps.length = p
    ∧ (drainLoop queue p notify0 done fresh).pending = USIZE_MOD - 1 :=
  ⟨by rw [drainLoop_decrements, drainLoop_steps_length],
    drainLoop_steps_length p queue notify0 done fresh,
    drainLoop_pending p queue notify0 done fresh⟩

end GrpcRs
